import Mathlib

/-!
Shallow embedding of the video-reel-metadata-downloader repository
(src/main.py, src/media_meta_data.py, src/temp.py,
src/youtube_metadata_fetcher.py).

Strings are modelled as Lean `String` / `List Char`.  Python functions that
can raise are embedded as `Except String`-valued functions; collaborators
(HTTP clients, the YouTube Data API, pandas CSV serialization) are passed in
as explicit oracle parameters.  Character classes (`\d`, `str.lower`,
`str.strip`) are modelled at ASCII precision, matching the ASCII URLs and
duration strings this repository processes.
-/

/-- ASCII whitespace stripped by Python `str.strip()`. -/
def pyIsSpace (c : Char) : Bool :=
  c = ' ' || c = '\t' || c = '\n' || c = '\r' || c = '\x0b' || c = '\x0c'

/-- Python `str.strip()` on a character list. -/
def pyStripList (l : List Char) : List Char :=
  ((l.dropWhile pyIsSpace).reverse.dropWhile pyIsSpace).reverse

/-- Python `str.strip()`. -/
def pyStrip (s : String) : String :=
  String.mk (pyStripList s.data)

/-- WHATWG C0-control-or-space class: `urllib.parse.urlsplit` lstrips these
from the URL before parsing. -/
def c0OrSpace (c : Char) : Bool := c.toNat ≤ 0x20

/-- The characters `urllib.parse.urlsplit` deletes from the URL
(`_UNSAFE_URL_BYTES_TO_REMOVE`). -/
def tabOrNewline (c : Char) : Bool := c = '\t' || c = '\r' || c = '\n'

/-- Characters allowed in a URL scheme after the leading letter
(`urllib.parse.scheme_chars`). -/
def schemeChar (c : Char) : Bool := c.isAlphanum || c = '+' || c = '-' || c = '.'

/-- The scheme-splitting step of `urllib.parse.urlsplit`: if the first `:`
is preceded by a letter followed by scheme characters, drop the scheme. -/
def splitScheme (l : List Char) : List Char :=
  match l.findIdx? (fun c => c = ':') with
  | none => l
  | some i =>
    if 0 < i ∧ (l.headD ' ').isAlpha ∧ ((l.take i).drop 1).all schemeChar then
      l.drop (i + 1)
    else l

/-- Model of `urllib.parse._splitnetloc`: the netloc runs to the first `/`, `?` or
`#`. -/
def splitNetloc (l : List Char) : List Char :=
  l.takeWhile (fun c => !(c = '/' || c = '?' || c = '#'))

/-- Python `int` on a digit string. -/
def digitsToNat (ds : List Char) : Nat :=
  ds.foldl (fun n c => n * 10 + (c.toNat - '0'.toNat)) 0

/-- Hex digits accepted by `ipaddress._IPAddressBase` (`_HEX_DIGITS`). -/
def hexDigit (c : Char) : Bool :=
  c.isDigit || decide ('a' ≤ c ∧ c ≤ 'f') || decide ('A' ≤ c ∧ c ≤ 'F')

/-- Model of `ipaddress.IPv4Address._parse_octet` (CPython 3.11): nonempty,
ASCII decimal digits, at most three characters, no leading zero unless the
octet is exactly `0`, value at most 255. -/
def ipv4OctetOk (s : List Char) : Bool :=
  if s = [] then false
  else if ¬ s.all Char.isDigit then false
  else if s.length > 3 then false
  else if s ≠ ['0'] ∧ s.headD ' ' = '0' then false
  else decide (digitsToNat s ≤ 255)

/-- Model of `ipaddress.IPv4Address._ip_int_from_string` validity: exactly
four valid octets split on `.`. -/
def ipv4Ok (s : List Char) : Bool :=
  if s = [] then false
  else
    let octets := s.splitOn '.'
    if octets.length ≠ 4 then false
    else octets.all ipv4OctetOk

/-- Model of `ipaddress.IPv6Address._parse_hextet` validity: hex digits
only, at most four of them, and nonempty (`int('', 16)` raises). -/
def hextetOk (s : List Char) : Bool :=
  if ¬ s.all hexDigit then false
  else if s.length > 4 then false
  else decide (s ≠ [])

/-- The part-level checks of `ipaddress.IPv6Address._ip_int_from_string`
(CPython 3.11) after the IPv4-suffix rewrite: at most nine parts; at most
one empty part strictly between the endpoints (the `::` skip); an empty
endpoint only as part of a leading or trailing `::`; with a skip, at least
one zero group skipped; without one, exactly eight parts; and every
non-skip part a valid hextet. -/
def ipv6PartsOk (parts : List (List Char)) : Bool :=
  if parts.length > 9 then false
  else
    match (List.range parts.length).filter
        (fun i => decide (0 < i) && decide (i < parts.length - 1)
          && decide (parts.getD i ['x'] = [])) with
    | [] =>
      if parts.length ≠ 8 then false
      else if parts.headD ['x'] = [] then false
      else if parts.getLastD ['x'] = [] then false
      else parts.all hextetOk
    | [i] =>
      let hi := if parts.headD ['x'] = [] then i - 1 else i
      let lo0 := parts.length - i - 1
      let lo := if parts.getLastD ['x'] = [] then lo0 - 1 else lo0
      if parts.headD ['x'] = [] ∧ hi ≠ 0 then false
      else if parts.getLastD ['x'] = [] ∧ lo ≠ 0 then false
      else if hi + lo ≥ 8 then false
      else (parts.take hi).all hextetOk && (parts.drop (parts.length - lo)).all hextetOk
    | _ => false

/-- Validity of an IPv6 address body (no zone id), per
`ipaddress.IPv6Address._ip_int_from_string`: nonempty, at least three
colon-separated parts, an IPv4-style last part converted into two hextets,
then the part-level checks. -/
def ipv6AddrOk (s : List Char) : Bool :=
  if s = [] then false
  else
    let parts := s.splitOn ':'
    if parts.length < 3 then false
    else if (parts.getLastD []).contains '.' then
      if ipv4Ok (parts.getLastD []) then
        ipv6PartsOk (parts.dropLast ++ [['0'], ['0']])
      else false
    else ipv6PartsOk parts

/-- Validity of an IPv6 address per `ipaddress.IPv6Address`, including the
`%` zone split of `_split_scope_id`: when a `%` is present the scope id
must be nonempty and contain no further `%`. -/
def ipv6Ok (s : List Char) : Bool :=
  if s.contains '%' then
    let addr := s.takeWhile (fun c => ¬ c = '%')
    let scope := (s.dropWhile (fun c => ¬ c = '%')).tail
    if scope = [] then false
    else if scope.contains '%' then false
    else ipv6AddrOk addr
  else ipv6AddrOk s

/-- Model of the IPvFuture regex of `urllib.parse._check_bracketed_host`,
`\Av[a-fA-F0-9]+\..+\Z`: a lowercase `v`, a nonempty run of hex digits, a
dot, then at least one more character with no newline (the unescaped `.`
never matches a newline).  A shorter hex run cannot rescue a failed match,
because the literal dot would then have to match a hex digit, so the greedy
reading is exact. -/
def ipvFutureOk (s : List Char) : Bool :=
  match s with
  | 'v' :: t =>
    (match t.dropWhile hexDigit with
     | '.' :: r => !(t.takeWhile hexDigit).isEmpty && !r.isEmpty && !r.contains '\n'
     | _ => false)
  | _ => false

/-- Model of `urllib.parse._check_bracketed_host` (CPython 3.11+): hosts
starting with `v` must match the IPvFuture regex; all other bracketed hosts
go through `ipaddress.ip_address`, which tries IPv4 first (an IPv4 address
in brackets is an error) and IPv6 second, raising `ValueError` when neither
parses.  The interpolated `{address!r}` of the last message is rendered as
the host between plain single quotes, which is `repr` for hosts without
quotes, backslashes or unprintable characters. -/
def bracketedHostCheck (host : List Char) : Except String Unit :=
  match host with
  | 'v' :: _ =>
    if ipvFutureOk host then Except.ok ()
    else Except.error "IPvFuture address is invalid"
  | _ =>
    if ipv4Ok host then Except.error "An IPv4 address cannot be in brackets"
    else if ipv6Ok host then Except.ok ()
    else Except.error
      ("'" ++ String.mk host ++ "' does not appear to be an IPv4 or IPv6 address")

/-- The netloc component computed by `urllib.parse.urlparse(url).netloc`
(CPython 3.11): lstrip C0 controls, delete tab/CR/LF, split off the scheme,
then take the netloc after a leading `//`.  Mismatched square brackets in
the netloc raise `ValueError("Invalid IPv6 URL")`; a matched bracket pair
has the text between the first `[` and the next `]` checked by
`_check_bracketed_host`, whose `ValueError` also propagates.  Both are
embedded as `Except.error`. -/
def urlparseNetloc (url : List Char) : Except String (List Char) :=
  let u := (url.dropWhile c0OrSpace).filter (fun c => !tabOrNewline c)
  match splitScheme u with
  | '/' :: '/' :: rest =>
    let netloc := splitNetloc rest
    if (netloc.contains '[' ∧ ¬ netloc.contains ']')
        ∨ (netloc.contains ']' ∧ ¬ netloc.contains '[') then
      Except.error "Invalid IPv6 URL"
    else if netloc.contains '[' ∧ netloc.contains ']' then
      match bracketedHostCheck
          (((netloc.dropWhile (fun c => ¬ c = '[')).tail).takeWhile
            (fun c => ¬ c = ']')) with
      | Except.error e => Except.error e
      | Except.ok _ => Except.ok netloc
    else Except.ok netloc
  | _ => Except.ok []

/-- Embedding of `detect_platform` (src/main.py lines 20-34, src/media_meta_data.py lines
132-143): strip, classify the empty string as unknown, lowercase the netloc,
then test the three suffix regexes `(youtube\.com|youtu\.be)$`,
`(tiktok\.com)$`, `(instagram\.com)$` in order.  A `re.search` of an
alternation anchored by `$` holds exactly when the string ends with one of
the alternatives, so each test is embedded as a suffix check.  The
`ValueError` that `urlparse` can raise propagates as `Except.error`. -/
def detect_platform (url : String) : Except String String :=
  let u := pyStripList url.data
  if u = [] then Except.ok "unknown"
  else
    match urlparseNetloc u with
    | Except.error e => Except.error e
    | Except.ok netloc =>
      let domain := netloc.map Char.toLower
      if "youtube.com".data.isSuffixOf domain ∨ "youtu.be".data.isSuffixOf domain then
        Except.ok "youtube"
      else if "tiktok.com".data.isSuffixOf domain then Except.ok "tiktok"
      else if "instagram.com".data.isSuffixOf domain then Except.ok "instagram"
      else Except.ok "unknown"

/-- Written from the words of the specification (section 4.1 / claim C1):
ends with `youtube.com` or `youtu.be` gives `youtube`; ends with
`tiktok.com` gives `tiktok`; ends with `instagram.com` gives `instagram`;
otherwise `unknown`.  To be compared with `detect_platform`. -/
def classifySpec (host : List Char) : String :=
  if "youtube.com".data.isSuffixOf host ∨ "youtu.be".data.isSuffixOf host then "youtube"
  else if "tiktok.com".data.isSuffixOf host then "tiktok"
  else if "instagram.com".data.isSuffixOf host then "instagram"
  else "unknown"

/-- One optional component of the duration regex
`PT(?:(\d+)H)?(?:(\d+)M)?(?:(\d+)S)?`: greedily take digits and require the
component letter right after them; otherwise the optional group matches
empty and the input is left untouched.  Greedy matching with backtracking
coincides with this deterministic reading because a digit run followed by
anything other than the component letter can never be completed. -/
def parseComp (letter : Char) (l : List Char) : Option (List Char) × List Char :=
  match l.dropWhile Char.isDigit with
  | c :: rest =>
    if l.takeWhile Char.isDigit ≠ [] ∧ c = letter then
      (some (l.takeWhile Char.isDigit), rest)
    else (none, l)
  | [] => (none, l)

/-- Model of `re.fullmatch` of `PT(?:(\d+)H)?(?:(\d+)M)?(?:(\d+)S)?`: the three
capture groups, or `none` when the whole string does not match. -/
def matchPT (l : List Char) :
    Option (Option (List Char) × Option (List Char) × Option (List Char)) :=
  match l with
  | 'P' :: 'T' :: l1 =>
    match parseComp 'H' l1 with
    | (oh, l2) =>
      match parseComp 'M' l2 with
      | (om, l3) =>
        match parseComp 'S' l3 with
        | (os, l4) => if l4 = [] then some (oh, om, os) else none
  | _ => none

/-- Python `f"{n:02d}"`. -/
def pad2 (n : Nat) : String :=
  if n < 10 then "0" ++ toString n else toString n

/-- Model of `int(match.group(i)) if match.group(i) else 0`: an absent group counts
as zero (a present group is a nonempty digit run, hence truthy). -/
def groupVal : Option (List Char) → Nat
  | some ds => digitsToNat ds
  | none => 0

/-- Embedding of `parse_youtube_duration_short` (src/media_meta_data.py lines 43-51). -/
def parse_youtube_duration_short (duration : String) : Option String :=
  match matchPT duration.data with
  | none => none
  | some (h, m, s) =>
    let hours := groupVal h
    let minutes := groupVal m
    let seconds := groupVal s
    if hours ≠ 0 then
      some (toString hours ++ ":" ++ pad2 minutes ++ ":" ++ pad2 seconds)
    else
      some (toString minutes ++ ":" ++ pad2 seconds)

/-- A well-formed capture group: absent, or a nonempty run of digits. -/
def goodGroup : Option (List Char) → Prop
  | none => True
  | some ds => ds ≠ [] ∧ ds.all Char.isDigit = true

/-- The characters contributed by one optional component of the grammar. -/
def optPart : Option (List Char) → Char → List Char
  | none, _ => []
  | some ds, c => ds ++ [c]

/-- The language of the ISO-8601 `PT#H#M#S` grammar from the specification:
`PT` followed by an optional digit run with `H`, an optional digit run with
`M`, and an optional digit run with `S`. -/
def DurGrammar (l : List Char) : Prop :=
  ∃ oh om os, goodGroup oh ∧ goodGroup om ∧ goodGroup os ∧
    l = 'P' :: 'T' :: (optPart oh 'H' ++ (optPart om 'M' ++ optPart os 'S'))

/-- The character class `[A-Za-z0-9_-]` of the YouTube video-ID regex. -/
def ytIdChar (c : Char) : Bool := c.isAlphanum || c = '_' || c = '-'

/-- Literal-prefix matching of a regex alternative: does `pat` occur at the
head of `l`. -/
def charsPre : List Char → List Char → Bool
  | [], _ => true
  | _ :: _, [] => false
  | p :: ps, c :: cs => if p = c then charsPre ps cs else false

/-- One alternative of `(?:v=|/v/|youtu\.be/|shorts/)([A-Za-z0-9_-]{11})`
tried at the current position: the literal prefix, then exactly eleven
ID characters, which form the capture group. -/
def tryOne (pat l : List Char) : Option (List Char) :=
  if charsPre pat l then
    if ((l.drop pat.length).take 11).length = 11 ∧
        ((l.drop pat.length).take 11).all ytIdChar then
      some ((l.drop pat.length).take 11)
    else none
  else none

/-- All four alternatives of the video-ID regex, in source order. -/
def tryAltsAt (l : List Char) : Option (List Char) :=
  match tryOne "v=".data l with
  | some r => some r
  | none =>
    match tryOne "/v/".data l with
    | some r => some r
    | none =>
      match tryOne "youtu.be/".data l with
      | some r => some r
      | none => tryOne "shorts/".data l

/-- Model of `re.search`: try the pattern at each position from the left; the first
position where some alternative completes wins. -/
def reSearch : List Char → Option (List Char)
  | [] => none
  | c :: rest =>
    match tryAltsAt (c :: rest) with
    | some r => some r
    | none => reSearch rest

/-- Embedding of `extract_video_id` (src/media_meta_data.py lines 78-84,
src/youtube_metadata_fetcher.py lines 16-24): the single pattern
`(?:v=|/v/|youtu\.be/|shorts/)([A-Za-z0-9_-]{11})` searched over the URL;
the capture group of the first match, else `None`. -/
def extract_video_id (url : String) : Option String :=
  (reSearch url.data).map String.mk

/-- A `<meta>` tag as seen by `soup.find("meta", {"property": prop})`: its
`property` attribute and its optional `content` attribute. -/
structure MetaTag where
  prop : String
  content : Option String
deriving DecidableEq

/-- The helper `og(prop)` inside `fetch_instagram_meta`: find the first meta
tag with the given property; return its stripped `content`, or `None` when
the tag is absent, the attribute is absent, or the attribute is falsy (the
empty string). -/
def og (tags : List MetaTag) (p : String) : Option String :=
  match tags.find? (fun t => t.prop = p) with
  | none => none
  | some t =>
    match t.content with
    | none => none
    | some c => if c = "" then none else some (pyStrip c)

/-- Python `str.replace("nan", "")` on a character list: delete every
left-to-right non-overlapping occurrence of `nan`. -/
def replaceNanList : List Char → List Char
  | 'n' :: 'a' :: 'n' :: rest => replaceNanList rest
  | c :: rest => c :: replaceNanList rest
  | [] => []

/-- Python `s.replace("nan", "")`. -/
def pyReplaceNan (s : String) : String :=
  String.mk (replaceNanList s.data)

/-- Whether `nan` occurs as a substring. -/
def containsNan : List Char → Bool
  | 'n' :: 'a' :: 'n' :: _ => true
  | _ :: rest => containsNan rest
  | [] => false

/-- The record returned by the Instagram normalizer. -/
structure InstaRecord where
  url : String
  description : String
  thumbnail : String
deriving DecidableEq

/-- Python `a or ""` on strings: the empty string is falsy. -/
def pyOrEmpty : Option String → String
  | none => ""
  | some s => s

/-- Embedding of `fetch_instagram_meta` (src/media_meta_data.py lines 15-39).  The whole
try block — `requests.get`, `raise_for_status`, HTML parsing — is embedded
as an `Except`-valued collaborator delivering the list of meta tags of the
fetched page; `Except.error` covers every exception (network failure,
non-2xx status, parse error).  On success the record applies
`(value or "").replace("nan", "")` to the extracted fields; on any
exception the all-empty record is returned instead of propagating. -/
def fetch_instagram_meta (url : String) (page : Except String (List MetaTag)) :
    InstaRecord :=
  match page with
  | Except.error _ => { url := url, description := "", thumbnail := "" }
  | Except.ok tags =>
    let desc := og tags "og:description"
    let image := og tags "og:image"
    { url := if url = "" then "" else url
      description := pyReplaceNan (pyOrEmpty desc)
      thumbnail := pyReplaceNan (pyOrEmpty image) }

/-- The snippet fields of a YouTube `videos.list` item that
`fetch_video_data` reads; each is optional, mirroring `snippet.get(...)`. -/
structure Snippet where
  title : Option String := none
  description : Option String := none
  channelId : Option String := none
  publishedAt : Option String := none
  thumbDefaultUrl : Option String := none
  defaultAudioLanguage : Option String := none
deriving DecidableEq

/-- The contentDetails fields that `fetch_video_data` reads. -/
structure ContentDetails where
  duration : Option String := none
deriving DecidableEq

/-- One item of a `videos.list` response; `item.get("snippet", {})` and
`item.get("contentDetails", {})` are modelled by all-`none` defaults. -/
structure YtItem where
  snippet : Snippet := {}
  contentDetails : ContentDetails := {}
deriving DecidableEq

/-- A `videos.list` response: its list of matching items. -/
structure YtResponse where
  items : List YtItem
deriving DecidableEq

/-- The statistics of a `channels.list` item. -/
structure ChannelStats where
  subscriberCount : Option String := none
deriving DecidableEq

/-- One item of a `channels.list` response. -/
structure ChannelItem where
  statistics : ChannelStats
deriving DecidableEq

/-- Embedding of `get_channel_statistics` (src/media_meta_data.py lines 95-101), over the
items of the `channels.list` response: `None` when no item matches, else
the first item's `subscriberCount`. -/
def get_channel_statistics (items : List ChannelItem) : Option String :=
  match items with
  | [] => none
  | it :: _ => it.statistics.subscriberCount

/-- Python f-string interpolation of an optional value: `None` prints as the
four characters `None`. -/
def pyFStr : Option String → String
  | some s => s
  | none => "None"

/-- Model of `snippet.get("publishedAt").split("T")[0] if snippet.get("publishedAt")
else None`: the prefix before the first `T` when the value is truthy. -/
def pubDate : Option String → Option String
  | none => none
  | some s =>
    if s = "" then none
    else some (String.mk (s.data.takeWhile (fun c => ¬ c = 'T')))

/-- Embedding of `fetch_video_data` (src/media_meta_data.py lines 104-128).  The network
response of `videos.list` is the `resp` parameter; the secondary
`channels.list` lookup by channel ID (`get_channel_statistics` applied to
its own network response) is the `channelLookup` oracle.  Zero matching
items produce `None`; otherwise the flattened record.  A `None` duration
would raise `TypeError` inside `re.fullmatch` in Python; the API always
supplies one, and that case is modelled as a `None` field. -/
def fetch_video_data (channelLookup : Option String → Option String)
    (resp : YtResponse) : Option (List (String × Option String)) :=
  match resp.items with
  | [] => none
  | item :: _ =>
    let snip := item.snippet
    let content := item.contentDetails
    let subscribers := channelLookup snip.channelId
    some [
      ("Title / Headline", snip.title),
      ("Description / Summary", snip.description),
      ("Creator / Channel",
        some ("https://www.youtube.com/channel/" ++ pyFStr snip.channelId)),
      ("Publish Date", pubDate snip.publishedAt),
      ("Thumbnail Url", snip.thumbDefaultUrl),
      ("Language", snip.defaultAudioLanguage),
      ("Duration",
        match content.duration with
        | some d => parse_youtube_duration_short d
        | none => none),
      ("Followers / Subscribers", subscribers)]

/-- Embedding of `download_metadata` (src/media_meta_data.py lines 146-157).  The three
network-dependent normalizers are oracle parameters returning records of an
abstract type; returning without a value (unknown platform, or the trailing
fall-through) is `Except.ok none`; the `ValueError` of `detect_platform`
propagates. -/
def download_metadata {α : Type} (fetchVideo : Option String → Option α)
    (fetchTiktok : String → Option α) (fetchInsta : String → α)
    (url : String) : Except String (Option α) :=
  match detect_platform url with
  | Except.error e => Except.error e
  | Except.ok platform =>
    if platform = "unknown" then Except.ok none
    else if platform = "youtube" then Except.ok (fetchVideo (extract_video_id url))
    else if platform = "tiktok" then Except.ok (fetchTiktok url)
    else if platform = "instagram" then Except.ok (some (fetchInsta url))
    else Except.ok none

/-- The Instagram credentials logic of `download_video`: both environment
variables must be present and truthy (non-empty) for a login session to be
constructed. -/
def instaCreds (env : String → Option String) : Option (String × String) :=
  match env "INSTA_USERNAME", env "INSTA_PASSWORD" with
  | some u, some p => if u ≠ "" ∧ p ≠ "" then some (u, p) else none
  | _, _ => none

/-- Embedding of `download_video` (src/main.py lines 173-204).  `env` is `os.getenv`;
the three platform downloaders are oracles.  For TikTok a missing or empty
`RAPIDAPI_KEY` raises `EnvironmentError` before any downloader is invoked;
for Instagram the credentials (when both truthy) are passed through to the
downloader. -/
def download_video {α : Type} (env : String → Option String)
    (tiktokDl : String → String → α)
    (youtubeDl : String → α)
    (instaDl : String → Option (String × String) → α)
    (url : String) : Except String (Option α) :=
  match detect_platform url with
  | Except.error e => Except.error e
  | Except.ok platform =>
    if platform = "unknown" then Except.ok none
    else if platform = "tiktok" then
      match env "RAPIDAPI_KEY" with
      | none => Except.error "TikTok RapidAPI key not found in environment."
      | some key =>
        if key = "" then Except.error "TikTok RapidAPI key not found in environment."
        else Except.ok (some (tiktokDl url key))
    else if platform = "youtube" then Except.ok (some (youtubeDl url))
    else if platform = "instagram" then Except.ok (some (instaDl url (instaCreds env)))
    else Except.ok none

/-- A data-frame row after `astype(str)`: column name to cell; a `none`
cell models a Python `None` written by the update loop. -/
def Row := List (String × Option String)

/-- Find a cell by column name. -/
def lookupCell : Row → String → Option (Option String)
  | [], _ => none
  | (k, v) :: rest, key => if k = key then some v else lookupCell rest key

/-- Model of `str(row.get("URL / Media", "")).strip()`: missing column defaults to
the empty string; a `None` cell prints as `None`. -/
def urlOfRow (row : Row) : String :=
  pyStrip (match lookupCell row "URL / Media" with
    | none => ""
    | some none => "None"
    | some (some s) => s)

/-- Model of `df.at[idx, key] = value`: overwrite the cell, appending the column when
absent.  (In pandas the new column is added to every row; only this row's
cells are observable to the loop, so the row-local view suffices.) -/
def setCell : Row → String → Option String → Row
  | [], k, v => [(k, v)]
  | (k2, v2) :: rest, k, v =>
    if k2 = k then (k, v) :: rest else (k2, v2) :: setCell rest k v

/-- The value coercion of the main loop (src/media_meta_data.py lines
191-194): a string whose lower-casing is `nan` becomes the empty string.
(The float-NaN branch has no analogue for string-valued cells.) -/
def coerceCell : Option String → Option String
  | none => none
  | some s => if String.mk (s.data.map Char.toLower) = "nan" then some "" else some s

/-- Apply all `(key, value)` pairs of a fetched record to a row. -/
def updateRow (row : Row) (results : List (String × Option String)) : Row :=
  results.foldl (fun r kv => setCell r kv.1 (coerceCell kv.2)) row

/-- The outcome of `download_metadata` for one row as the loop body sees it:
a record (a dict; the empty dict is falsy), a falsy result, or an exception
caught by the per-row handler. -/
inductive MetaOutcome where
  | record (fields : List (String × Option String))
  | noRecord
  | raised (msg : String)
deriving DecidableEq

/-- A file-system operation performed by the script: `df.to_csv(path)` or
`os.replace(src, dst)`. -/
inductive FileOp where
  | write (path content : String)
  | replace (src dst : String)
deriving DecidableEq

/-- A file system: path to contents. -/
def FS := String → Option String

/-- The effect of one file operation. -/
def applyOp (fs : FS) : FileOp → FS
  | FileOp.write p c => fun q => if q = p then some c else fs q
  | FileOp.replace src dst => fun q =>
      if q = dst then fs src else if q = src then none else fs q

/-- The effect of a sequence of file operations. -/
def applyOps (fs : FS) (ops : List FileOp) : FS :=
  ops.foldl applyOp fs

/-- The constant `INPUT_CSV` of src/media_meta_data.py. -/
def INPUT_CSV : String := "WHATSAPP_AI_Video_Library_2025-10-12.csv"

/-- The constant `TEMP_CSV` of src/media_meta_data.py. -/
def TEMP_CSV : String := "temp.csv"

/-- The row loop of src/media_meta_data.py lines 176-209, iterating over the
row indices.  `meta` stands for `download_metadata(idx + 1, url)` with its
network effects (`raised` covering an escaped exception, caught by the
per-row handler), `toCsv` for pandas CSV serialization.  Returns the final
data frame, the success count, the merged skipped/errored count, and the
trace of file operations: one `to_csv(TEMP_CSV)` per successfully processed
row. -/
def loopRows (meta : Nat → String → MetaOutcome) (toCsv : List Row → String) :
    List Nat → List Row → Nat → Nat → (List Row × Nat × Nat × List FileOp)
  | [], df, succ, skip => (df, succ, skip, [])
  | idx :: rest, df, succ, skip =>
    let url := urlOfRow (df.getD idx [])
    if url = "" ∨ url = "nan" then
      loopRows meta toCsv rest df succ (skip + 1)
    else
      match meta (idx + 1) url with
      | MetaOutcome.record fields =>
        if fields = [] then
          loopRows meta toCsv rest df succ (skip + 1)
        else
          let df2 := df.set idx (updateRow (df.getD idx []) fields)
          let out := loopRows meta toCsv rest df2 (succ + 1) skip
          (out.1, out.2.1, out.2.2.1, FileOp.write TEMP_CSV (toCsv df2) :: out.2.2.2)
      | MetaOutcome.noRecord => loopRows meta toCsv rest df succ (skip + 1)
      | MetaOutcome.raised _ => loopRows meta toCsv rest df succ (skip + 1)

/-- All file operations before the final swap: the initial
`df.to_csv(TEMP_CSV)` (line 170) followed by the loop's per-row temp
writes. -/
def preSwapOps (meta : Nat → String → MetaOutcome) (toCsv : List Row → String)
    (df0 : List Row) : List FileOp :=
  FileOp.write TEMP_CSV (toCsv df0) ::
    (loopRows meta toCsv (List.range df0.length) df0 0 0).2.2.2

/-- The complete file-operation trace of the run: everything before the
swap, then `os.replace(TEMP_CSV, INPUT_CSV)` (line 212). -/
def programOps (meta : Nat → String → MetaOutcome) (toCsv : List Row → String)
    (df0 : List Row) : List FileOp :=
  preSwapOps meta toCsv df0 ++ [FileOp.replace TEMP_CSV INPUT_CSV]

/-- When the netloc is extracted successfully, `detect_platform` agrees with
the specification's suffix classification of the lower-cased host. -/
theorem detect_platform_ok_aux (url : String) (netloc : List Char)
    (h : urlparseNetloc (pyStripList url.data) = Except.ok netloc) :
    detect_platform url = Except.ok (classifySpec (netloc.map Char.toLower)) := by
  by_cases hu : pyStripList url.data = []
  · rw [hu] at h
    have hnet : netloc = [] := by
      simpa [urlparseNetloc, splitScheme] using h
    simp [detect_platform, hu, hnet, classifySpec]
  · simp only [detect_platform, hu, if_false, h, classifySpec]
    split_ifs <;> rfl

/-- When `urlparse` raises, `detect_platform` propagates the error. -/
theorem detect_platform_err_aux (url : String) (e : String)
    (hu : pyStripList url.data ≠ [])
    (h : urlparseNetloc (pyStripList url.data) = Except.error e) :
    detect_platform url = Except.error e := by
  simp only [detect_platform, hu, if_false, h]

/-- The specification's classifier only produces the four platform tags. -/
theorem classifySpec_cases (host : List Char) :
    classifySpec host = "youtube" ∨ classifySpec host = "tiktok" ∨
    classifySpec host = "instagram" ∨ classifySpec host = "unknown" := by
  unfold classifySpec
  split_ifs <;> simp

/-- Claim C1: for every URL, the empty string (after trimming whitespace)
classifies as unknown, and whenever the host component is extracted
successfully, `detect_platform` returns exactly the suffix-based
classification of the lower-cased host stated by the specification. -/
theorem detect_platform_matches_spec :
    (∀ url : String, pyStripList url.data = [] →
      detect_platform url = Except.ok "unknown") ∧
    (∀ (url : String) (netloc : List Char),
      urlparseNetloc (pyStripList url.data) = Except.ok netloc →
      detect_platform url = Except.ok (classifySpec (netloc.map Char.toLower))) := by
  constructor
  · intro url h
    simp [detect_platform, h]
  · exact detect_platform_ok_aux

/-- Witness for C1 at concrete inputs: the empty URL classifies as unknown,
and a mixed-case YouTube URL's netloc is classified through the spec's
suffix rule. -/
theorem detect_platform_matches_spec_witness :
    detect_platform "" = Except.ok "unknown" ∧
    (urlparseNetloc (pyStripList "https://m.YouTube.com/watch".data) =
        Except.ok "m.YouTube.com".data ∧
      detect_platform "https://m.YouTube.com/watch" =
        Except.ok (classifySpec ("m.YouTube.com".data.map Char.toLower))) :=
  ⟨detect_platform_matches_spec.1 "" rfl,
   rfl,
   detect_platform_matches_spec.2 "https://m.YouTube.com/watch" "m.YouTube.com".data
     rfl⟩

/-- Claim C2 counterexample: on the malformed URL `http://[`, `urlparse`
raises `ValueError("Invalid IPv6 URL")`, so `detect_platform` propagates an
exception instead of returning one of the four platform tags. -/
theorem detect_platform_raises_on_bracket :
    detect_platform "http://[" = Except.error "Invalid IPv6 URL" ∧
    (detect_platform "http://[").isOk = false := ⟨rfl, rfl⟩

/-- Claim C2 amended: for every input string `detect_platform` terminates
and either returns one of the four platform tags or raises a `ValueError`
from `urlparse` (CPython 3.11+): `Invalid IPv6 URL` for mismatched square
brackets in the netloc, or a `_check_bracketed_host` error when a matched
bracket pair holds anything other than a valid IPv6 or IPvFuture address —
so `http://[` raises on every CPython version, `http://[foo]/` raises on
3.11+, and a well-formed bracketed host such as `http://[::1]/x` does not
raise. -/
theorem detect_platform_total :
    (∀ url : String,
      (∃ e, detect_platform url = Except.error e) ∨
      detect_platform url = Except.ok "youtube" ∨
      detect_platform url = Except.ok "tiktok" ∨
      detect_platform url = Except.ok "instagram" ∨
      detect_platform url = Except.ok "unknown") ∧
    detect_platform "http://[foo]/"
      = Except.error "'foo' does not appear to be an IPv4 or IPv6 address" ∧
    detect_platform "http://[127.0.0.1]/"
      = Except.error "An IPv4 address cannot be in brackets" ∧
    detect_platform "http://[v.x]/" = Except.error "IPvFuture address is invalid" ∧
    detect_platform "http://[::1]/x" = Except.ok "unknown" ∧
    detect_platform "http://[fe80::1%eth0]/" = Except.ok "unknown" := by
  refine ⟨?_, rfl, rfl, rfl, rfl, rfl⟩
  intro url
  by_cases hu : pyStripList url.data = []
  · right; right; right; right
    simp [detect_platform, hu]
  · rcases hv : urlparseNetloc (pyStripList url.data) with e | netloc
    · exact Or.inl ⟨e, detect_platform_err_aux url e hu hv⟩
    · right
      have hc := detect_platform_ok_aux url netloc hv
      rcases classifySpec_cases (netloc.map Char.toLower) with h | h | h | h <;>
        rw [h] at hc <;> simp [hc]

/-- Witness for C2 amended: the universally quantified clause applied at a
concrete well-formed URL. -/
theorem detect_platform_total_witness :
    (∃ e, detect_platform "https://www.tiktok.com/@u/video/1" = Except.error e) ∨
    detect_platform "https://www.tiktok.com/@u/video/1" = Except.ok "youtube" ∨
    detect_platform "https://www.tiktok.com/@u/video/1" = Except.ok "tiktok" ∨
    detect_platform "https://www.tiktok.com/@u/video/1" = Except.ok "instagram" ∨
    detect_platform "https://www.tiktok.com/@u/video/1" = Except.ok "unknown" :=
  detect_platform_total.1 "https://www.tiktok.com/@u/video/1"

/-- A component parse decomposes its input: the consumed characters are
exactly the optional group's contribution, and the group is well formed. -/
theorem parseComp_decomp {letter : Char} {l : List Char}
    {o : Option (List Char)} {rest : List Char}
    (h : parseComp letter l = (o, rest)) :
    l = optPart o letter ++ rest ∧ goodGroup o := by
  unfold parseComp at h
  split at h
  · rename_i c rest' hdw
    split at h
    · rename_i hcond
      obtain ⟨hne, hc⟩ := hcond
      injection h with h1 h2
      subst h1
      subst h2
      subst hc
      refine ⟨?_, hne, List.all_takeWhile⟩
      have hsplit := List.takeWhile_append_dropWhile Char.isDigit l
      rw [hdw] at hsplit
      simp only [optPart, List.append_assoc, List.cons_append, List.nil_append]
      exact hsplit.symm
    · injection h with h1 h2
      subst h1
      subst h2
      exact ⟨rfl, trivial⟩
  · injection h with h1 h2
    subst h1
    subst h2
    exact ⟨rfl, trivial⟩

/-- A successful `fullmatch` of the duration regex certifies membership in
the `PT#H#M#S` grammar. -/
theorem matchPT_sound {l : List Char} (hne : matchPT l ≠ none) : DurGrammar l := by
  rcases hg : matchPT l with _ | ⟨⟨oh, om, os⟩⟩
  · exact absurd hg hne
  · unfold matchPT at hg
    split at hg
    · rename_i l1
      rcases h1 : parseComp 'H' l1 with ⟨oh1, l2⟩
      rcases h2 : parseComp 'M' l2 with ⟨om1, l3⟩
      rcases h3 : parseComp 'S' l3 with ⟨os1, l4⟩
      simp only [h1, h2, h3] at hg
      split at hg
      · rename_i hl4
        injection hg with hg'
        obtain ⟨d1, g1⟩ := parseComp_decomp h1
        obtain ⟨d2, g2⟩ := parseComp_decomp h2
        obtain ⟨d3, g3⟩ := parseComp_decomp h3
        refine ⟨oh1, om1, os1, g1, g2, g3, ?_⟩
        rw [d1, d2, d3, hl4, List.append_nil]
      · exact absurd hg (by simp)
    · exact absurd hg (by simp)

/-- Claim C3: the concrete mappings from the specification, and every input
on which `parse_youtube_duration_short` does not return `None` fullmatches
the `PT#H#M#S` grammar (equivalently, every non-matching input maps to
`None`). -/
theorem parse_duration_spec_cases :
    parse_youtube_duration_short "PT1H2M3S" = some "1:02:03" ∧
    parse_youtube_duration_short "PT5M9S" = some "5:09" ∧
    parse_youtube_duration_short "PT45S" = some "0:45" ∧
    parse_youtube_duration_short "PT0S" = some "0:00" ∧
    parse_youtube_duration_short "bogus" = none ∧
    (∀ s : String, parse_youtube_duration_short s ≠ none → DurGrammar s.data) := by
  refine ⟨by decide, by decide, by decide, by decide, by decide, ?_⟩
  intro s hs
  apply matchPT_sound
  intro hm
  unfold parse_youtube_duration_short at hs
  rw [hm] at hs
  exact hs rfl

/-- Witness for C3: the universally quantified clause applied at the
concrete accepted input `PT45S`. -/
theorem parse_duration_spec_cases_witness :
    parse_youtube_duration_short "PT45S" ≠ none ∧ DurGrammar "PT45S".data :=
  ⟨by decide, parse_duration_spec_cases.2.2.2.2.2 "PT45S" (by decide)⟩

/-- Claim C10: the bare string `PT` fullmatches the duration regex with all
three capture groups empty, so the function returns `0:00` rather than
`None`. -/
theorem parse_duration_bare_PT :
    parse_youtube_duration_short "PT" = some "0:00" := by decide

/-- Claim C4: whenever the fetch/parse step raises any exception, the
Instagram normalizer returns the record with empty description and empty
thumbnail and the url field present, and never propagates the exception
(the function is total into `InstaRecord`). -/
theorem fetch_instagram_meta_on_error (url e : String) :
    fetch_instagram_meta url (Except.error e) =
      { url := url, description := "", thumbnail := "" } ∧
    (fetch_instagram_meta url (Except.error e)).description = "" ∧
    (fetch_instagram_meta url (Except.error e)).thumbnail = "" :=
  ⟨rfl, rfl, rfl⟩

/-- Claim C5 counterexample: the fetched description `nnanan` is neither
`None` nor the literal `nan`, yet it does not appear unchanged in the
output — `replace("nan", "")` turns it into the literal placeholder `nan`
itself. -/
theorem insta_nan_counterexample :
    (fetch_instagram_meta "u"
        (Except.ok [{ prop := "og:description", content := some "nnanan" }])).description
      = "nan" ∧
    ("nnanan" : String) ≠ "nan" ∧ ("nnanan" : String) ≠ "" := by decide

/-- The operation `replace("nan", "")` leaves a string with no `nan` occurrence intact. -/
theorem replaceNan_of_not_contains :
    ∀ l : List Char, containsNan l = false → replaceNanList l = l := by
  intro l
  induction l using replaceNanList.induct with
  | case1 rest ih =>
    intro h
    simp [containsNan] at h
  | case2 c rest hne ih =>
    intro h
    rw [replaceNanList.eq_def]
    rw [containsNan.eq_def] at h
    split at h
    · simp at h
    · rename_i x1 c2 rest2 hne2 heq
      injection heq with e1 e2
      subst e1
      subst e2
      rw [ih h]
    · rename_i x1 heq
      exact absurd heq (by simp)
  | case3 =>
    intro h
    rfl

/-- Claim C5 amended: a fetched field value of `None` is coerced to the
empty string and the literal `nan` is coerced to the empty string, but via
`replace("nan", "")`, which more generally deletes every left-to-right
non-overlapping occurrence of the substring `nan`: a fetched value appears
unchanged exactly when it contains no `nan` substring, and an output value
can still be the literal `nan` (e.g. from the fetched value `nnanan`). -/
theorem insta_nan_coercion_amended :
    (∀ (url : String) (tags : List MetaTag), og tags "og:description" = none →
      (fetch_instagram_meta url (Except.ok tags)).description = "") ∧
    (∀ (url : String) (tags : List MetaTag) (d : String),
      og tags "og:description" = some d →
      (fetch_instagram_meta url (Except.ok tags)).description = pyReplaceNan d) ∧
    (∀ (url : String) (tags : List MetaTag), og tags "og:image" = none →
      (fetch_instagram_meta url (Except.ok tags)).thumbnail = "") ∧
    (∀ (url : String) (tags : List MetaTag) (d : String),
      og tags "og:image" = some d →
      (fetch_instagram_meta url (Except.ok tags)).thumbnail = pyReplaceNan d) ∧
    (∀ d : String, containsNan d.data = false → pyReplaceNan d = d) ∧
    pyReplaceNan "nan" = "" := by
  refine ⟨?_, ?_, ?_, ?_, ?_, by decide⟩
  · intro url tags h
    simp [fetch_instagram_meta, h, pyOrEmpty, pyReplaceNan, replaceNanList]
  · intro url tags d h
    simp [fetch_instagram_meta, h, pyOrEmpty]
  · intro url tags h
    simp [fetch_instagram_meta, h, pyOrEmpty, pyReplaceNan, replaceNanList]
  · intro url tags d h
    simp [fetch_instagram_meta, h, pyOrEmpty]
  · intro d h
    show String.mk (replaceNanList d.data) = d
    rw [replaceNan_of_not_contains d.data h]

/-- Witness for C5 amended: concrete page with description `hello`
(contains no `nan` substring, passes through unchanged). -/
theorem insta_nan_coercion_amended_witness :
    (og [{ prop := "og:description", content := some "hello" }] "og:description"
        = some "hello" ∧
      (fetch_instagram_meta "u"
          (Except.ok [{ prop := "og:description", content := some "hello" }])).description
        = pyReplaceNan "hello") ∧
    (containsNan ("hello" : String).data = false ∧ pyReplaceNan "hello" = "hello") :=
  ⟨⟨by decide,
    insta_nan_coercion_amended.2.1 "u"
      [{ prop := "og:description", content := some "hello" }] "hello" (by decide)⟩,
   by decide,
   insta_nan_coercion_amended.2.2.2.2.1 "hello" (by decide)⟩

/-- Claim C8: round-trip identity of ID extraction — for every string of
exactly eleven characters drawn from `[A-Za-z0-9_-]`, extracting from the
canonical URL `https://youtu.be/` followed by the ID reproduces the ID. -/
theorem extract_video_id_roundtrip (vid : String)
    (hlen : vid.data.length = 11) (hch : vid.data.all ytIdChar = true) :
    extract_video_id ("https://youtu.be/" ++ vid) = some vid := by
  obtain ⟨l⟩ := vid
  have htake : l.take 11 = l := by
    have h0 := List.take_length (l := l)
    rw [hlen] at h0
    exact h0
  have h3 : tryOne "youtu.be/".data ('y':: 'o':: 'u':: 't':: 'u':: '.':: 'b':: 'e':: '/'::l) = some l := by
    have e : tryOne "youtu.be/".data ('y':: 'o':: 'u':: 't':: 'u':: '.':: 'b':: 'e':: '/'::l)
        = if (l.take 11).length = 11 ∧ (l.take 11).all ytIdChar = true
          then some (l.take 11) else none := rfl
    rw [e, htake, if_pos ⟨hlen, hch⟩]
  have halts : tryAltsAt ('y':: 'o':: 'u':: 't':: 'u':: '.':: 'b':: 'e':: '/'::l) = some l := by
    have e2 : tryAltsAt ('y':: 'o':: 'u':: 't':: 'u':: '.':: 'b':: 'e':: '/'::l)
        = (match tryOne "youtu.be/".data ('y':: 'o':: 'u':: 't':: 'u':: '.':: 'b':: 'e':: '/'::l) with
           | some r => some r
           | none => tryOne "shorts/".data ('y':: 'o':: 'u':: 't':: 'u':: '.':: 'b':: 'e':: '/'::l)) := rfl
    rw [e2, h3]
  have hsr : reSearch ('y':: 'o':: 'u':: 't':: 'u':: '.':: 'b':: 'e':: '/'::l) = some l := by
    rw [reSearch, halts]
  show (reSearch ('h':: 't':: 't':: 'p':: 's':: ':':: '/':: '/':: 'y':: 'o':: 'u':: 't':: 'u':: '.':: 'b':: 'e':: '/'::l)).map String.mk
      = some (String.mk l)
  have hstep : reSearch ('h':: 't':: 't':: 'p':: 's':: ':':: '/':: '/':: 'y':: 'o':: 'u':: 't':: 'u':: '.':: 'b':: 'e':: '/'::l)
      = reSearch ('y':: 'o':: 'u':: 't':: 'u':: '.':: 'b':: 'e':: '/'::l) := rfl
  rw [hstep, hsr]
  rfl

/-- Witness for C8: a concrete eleven-character ID round-trips through the
canonical short URL. -/
theorem extract_video_id_roundtrip_witness :
    ("dQw4w9WgXcQ" : String).data.length = 11 ∧
    ("dQw4w9WgXcQ" : String).data.all ytIdChar = true ∧
    extract_video_id ("https://youtu.be/" ++ "dQw4w9WgXcQ") = some "dQw4w9WgXcQ" :=
  ⟨by decide, by decide,
   extract_video_id_roundtrip "dQw4w9WgXcQ" (by decide) (by decide)⟩

/-- Claim C6: a `videos.list` response with zero matching items makes
`fetch_video_data` return the no-record signal `None`, and a row whose
metadata lookup produced no record makes the loop increment the merged
skipped/errored counter and continue with the remaining rows, data frame
and success count unchanged. -/
theorem no_items_skips_row :
    (∀ (channelLookup : Option String → Option String) (resp : YtResponse),
      resp.items = [] → fetch_video_data channelLookup resp = none) ∧
    (∀ (meta : Nat → String → MetaOutcome) (toCsv : List Row → String)
        (idx : Nat) (rest : List Nat) (df : List Row) (succ skip : Nat),
      urlOfRow (df.getD idx []) ≠ "" →
      urlOfRow (df.getD idx []) ≠ "nan" →
      meta (idx + 1) (urlOfRow (df.getD idx [])) = MetaOutcome.noRecord →
      loopRows meta toCsv (idx :: rest) df succ skip
        = loopRows meta toCsv rest df succ (skip + 1)) := by
  constructor
  · intro cl resp h
    unfold fetch_video_data
    rw [h]
  · intro meta toCsv idx rest df succ skip h1 h2 h3
    simp only [loopRows, h3]
    rw [if_neg (not_or.mpr ⟨h1, h2⟩)]

/-- Witness for C6 at concrete inputs: the empty response, and a one-row
table whose metadata lookup returns no record. -/
theorem no_items_skips_row_witness :
    (YtResponse.mk []).items = [] ∧
    fetch_video_data (fun _ => none) (YtResponse.mk []) = none ∧
    urlOfRow (([[("URL / Media", some "u")]] : List Row).getD 0 []) ≠ "" ∧
    urlOfRow (([[("URL / Media", some "u")]] : List Row).getD 0 []) ≠ "nan" ∧
    loopRows (fun _ _ => MetaOutcome.noRecord) (fun _ => "")
        [0] [[("URL / Media", some "u")]] 0 0
      = loopRows (fun _ _ => MetaOutcome.noRecord) (fun _ => "")
        [] [[("URL / Media", some "u")]] 0 1 :=
  ⟨rfl, no_items_skips_row.1 (fun _ => none) (YtResponse.mk []) rfl,
   by decide, by decide,
   no_items_skips_row.2 (fun _ _ => MetaOutcome.noRecord) (fun _ => "")
     0 [] [[("URL / Media", some "u")]] 0 0 (by decide) (by decide) rfl⟩

/-- Claim C7 counterexample: a URL classifying as the known platform
`tiktok` does not make `download_video` return the normalizer's result
verbatim when `RAPIDAPI_KEY` is absent — it raises `EnvironmentError`
before invoking any downloader. -/
theorem dispatcher_missing_key_counterexample :
    detect_platform "https://www.tiktok.com/@u/video/1" = Except.ok "tiktok" ∧
    download_video (α := Unit) (fun _ => none) (fun _ _ => ()) (fun _ => ())
        (fun _ _ => ()) "https://www.tiktok.com/@u/video/1"
      = Except.error "TikTok RapidAPI key not found in environment." ∧
    download_video (α := Unit) (fun _ => none) (fun _ _ => ()) (fun _ => ())
        (fun _ _ => ()) "https://www.tiktok.com/@u/video/1"
      ≠ Except.ok (some ()) := by
  refine ⟨rfl, rfl, ?_⟩
  intro h
  rw [show download_video (α := Unit) (fun _ => none) (fun _ _ => ()) (fun _ => ())
        (fun _ _ => ()) "https://www.tiktok.com/@u/video/1"
      = Except.error "TikTok RapidAPI key not found in environment." from rfl] at h
  exact Except.noConfusion h

/-- Claim C7 amended: URLs classifying as `unknown` yield the failure
signal with no normalizer invoked (the result is independent of every
oracle); URLs classifying as a known platform make `download_metadata`
return the matching normalizer's result verbatim, and `download_video` as
well for YouTube and Instagram — but for TikTok only when `RAPIDAPI_KEY`
is present and non-empty; when it is absent, `download_video` raises
`EnvironmentError` instead. -/
theorem dispatcher_routes :
    (∀ (α : Type) (fv : Option String → Option α) (ft : String → Option α)
        (fi : String → α) (url : String),
      detect_platform url = Except.ok "unknown" →
      download_metadata fv ft fi url = Except.ok none) ∧
    (∀ (α : Type) (fv : Option String → Option α) (ft : String → Option α)
        (fi : String → α) (url : String),
      detect_platform url = Except.ok "youtube" →
      download_metadata fv ft fi url = Except.ok (fv (extract_video_id url))) ∧
    (∀ (α : Type) (fv : Option String → Option α) (ft : String → Option α)
        (fi : String → α) (url : String),
      detect_platform url = Except.ok "tiktok" →
      download_metadata fv ft fi url = Except.ok (ft url)) ∧
    (∀ (α : Type) (fv : Option String → Option α) (ft : String → Option α)
        (fi : String → α) (url : String),
      detect_platform url = Except.ok "instagram" →
      download_metadata fv ft fi url = Except.ok (some (fi url))) ∧
    (∀ (α : Type) (env : String → Option String) (t : String → String → α)
        (y : String → α) (i : String → Option (String × String) → α)
        (url : String),
      detect_platform url = Except.ok "unknown" →
      download_video env t y i url = Except.ok none) ∧
    (∀ (α : Type) (env : String → Option String) (t : String → String → α)
        (y : String → α) (i : String → Option (String × String) → α)
        (url : String),
      detect_platform url = Except.ok "tiktok" → env "RAPIDAPI_KEY" = none →
      download_video env t y i url
        = Except.error "TikTok RapidAPI key not found in environment.") ∧
    (∀ (α : Type) (env : String → Option String) (t : String → String → α)
        (y : String → α) (i : String → Option (String × String) → α)
        (url k : String),
      detect_platform url = Except.ok "tiktok" → env "RAPIDAPI_KEY" = some k →
      k ≠ "" →
      download_video env t y i url = Except.ok (some (t url k))) ∧
    (∀ (α : Type) (env : String → Option String) (t : String → String → α)
        (y : String → α) (i : String → Option (String × String) → α)
        (url : String),
      detect_platform url = Except.ok "youtube" →
      download_video env t y i url = Except.ok (some (y url))) ∧
    (∀ (α : Type) (env : String → Option String) (t : String → String → α)
        (y : String → α) (i : String → Option (String × String) → α)
        (url : String),
      detect_platform url = Except.ok "instagram" →
      download_video env t y i url = Except.ok (some (i url (instaCreds env)))) := by
  refine ⟨?_, ?_, ?_, ?_, ?_, ?_, ?_, ?_, ?_⟩
  · intro α fv ft fi url h
    unfold download_metadata
    rw [h]
    rfl
  · intro α fv ft fi url h
    unfold download_metadata
    rw [h]
    rfl
  · intro α fv ft fi url h
    unfold download_metadata
    rw [h]
    rfl
  · intro α fv ft fi url h
    unfold download_metadata
    rw [h]
    rfl
  · intro α env t y i url h
    unfold download_video
    rw [h]
    rfl
  · intro α env t y i url h hk
    unfold download_video
    rw [h]
    simp only [hk]
    rfl
  · intro α env t y i url k h hk hke
    unfold download_video
    rw [h]
    simp only [hk]
    rw [if_neg hke]
    rfl
  · intro α env t y i url h
    unfold download_video
    rw [h]
    rfl
  · intro α env t y i url h
    unfold download_video
    rw [h]
    rfl

/-- Witness for C7 amended at concrete inputs: a YouTube URL routed through
`download_metadata` verbatim, and a TikTok URL routed through
`download_video` with a present, non-empty key. -/
theorem dispatcher_routes_witness :
    (detect_platform "https://youtu.be/dQw4w9WgXcQ" = Except.ok "youtube" ∧
      download_metadata (fun o => o) (fun _ => none) (fun s => s)
          "https://youtu.be/dQw4w9WgXcQ"
        = Except.ok (extract_video_id "https://youtu.be/dQw4w9WgXcQ")) ∧
    (detect_platform "https://www.tiktok.com/@u/video/1" = Except.ok "tiktok" ∧
      (fun _ => some "k" : String → Option String) "RAPIDAPI_KEY" = some "k" ∧
      ("k" : String) ≠ "" ∧
      download_video (fun _ => some "k") (fun u k => u ++ k) (fun u => u)
          (fun u _ => u) "https://www.tiktok.com/@u/video/1"
        = Except.ok (some ("https://www.tiktok.com/@u/video/1" ++ "k"))) :=
  ⟨⟨rfl, dispatcher_routes.2.1 String (fun o => o) (fun _ => none)
      (fun s => s) "https://youtu.be/dQw4w9WgXcQ" rfl⟩,
   rfl, rfl, by decide,
   dispatcher_routes.2.2.2.2.2.2.1 String (fun _ => some "k") (fun u k => u ++ k)
     (fun u => u) (fun u _ => u) "https://www.tiktok.com/@u/video/1" "k"
     rfl rfl (by decide)⟩

/-- Every file operation emitted by the row loop is a write to the
temporary CSV. -/
theorem loopRows_ops_temp (meta : Nat → String → MetaOutcome)
    (toCsv : List Row → String) :
    ∀ (idxs : List Nat) (df : List Row) (succ skip : Nat) (op : FileOp),
      op ∈ (loopRows meta toCsv idxs df succ skip).2.2.2 →
      ∃ c, op = FileOp.write TEMP_CSV c := by
  intro idxs
  induction idxs with
  | nil =>
    intro df succ skip op hop
    simp [loopRows] at hop
  | cons idx rest ih =>
    intro df succ skip op hop
    simp only [loopRows] at hop
    split at hop
    · exact ih df succ (skip + 1) op hop
    · split at hop
      · split at hop
        · exact ih df succ (skip + 1) op hop
        · rcases List.mem_cons.mp hop with h | h
          · exact ⟨_, h⟩
          · exact ih _ (succ + 1) skip op h
      · exact ih df succ (skip + 1) op hop
      · exact ih df succ (skip + 1) op hop

/-- A sequence of writes to the temporary CSV never changes the contents of
the input CSV. -/
theorem applyOps_skips_input (ops : List FileOp) :
    ∀ fs : FS, (∀ op ∈ ops, ∃ c, op = FileOp.write TEMP_CSV c) →
      applyOps fs ops INPUT_CSV = fs INPUT_CSV := by
  induction ops with
  | nil =>
    intro fs h
    rfl
  | cons op rest ih =>
    intro fs h
    obtain ⟨c, rfl⟩ := h op (List.mem_cons_self op rest)
    have step : applyOps fs (FileOp.write TEMP_CSV c :: rest)
        = applyOps (applyOp fs (FileOp.write TEMP_CSV c)) rest := rfl
    rw [step, ih _ (fun op hop => h op (List.mem_cons_of_mem _ hop))]
    show (if INPUT_CSV = TEMP_CSV then some c else fs INPUT_CSV) = fs INPUT_CSV
    rw [if_neg (by decide)]

/-- Claim C9: at every step of the row-processing loop before the final
swap, the original input table file is never written — halting after any
prefix of the run's file operations that stops before the `os.replace`
leaves the input file's contents exactly as they were at the start. -/
theorem input_untouched_before_swap (meta : Nat → String → MetaOutcome)
    (toCsv : List Row → String) (df0 : List Row) (fs : FS) (n : Nat)
    (hn : n ≤ (preSwapOps meta toCsv df0).length) :
    applyOps fs ((programOps meta toCsv df0).take n) INPUT_CSV
      = fs INPUT_CSV := by
  rw [programOps, List.take_append_of_le_length hn]
  apply applyOps_skips_input
  intro op hop
  have hop2 : op ∈ preSwapOps meta toCsv df0 := List.mem_of_mem_take hop
  rw [preSwapOps] at hop2
  rcases List.mem_cons.mp hop2 with h | h
  · exact ⟨_, h⟩
  · exact loopRows_ops_temp meta toCsv _ _ _ _ op h

/-- Witness for C9: a concrete one-row run interrupted after its first file
operation leaves the input CSV untouched. -/
theorem input_untouched_before_swap_witness :
    1 ≤ (preSwapOps (fun _ _ => MetaOutcome.noRecord) (fun _ => "")
        [[("URL / Media", some "u")]]).length ∧
    applyOps (fun _ => none)
        ((programOps (fun _ _ => MetaOutcome.noRecord) (fun _ => "")
          [[("URL / Media", some "u")]]).take 1) INPUT_CSV
      = (fun _ => (none : Option String)) INPUT_CSV :=
  ⟨by decide,
   input_untouched_before_swap (fun _ _ => MetaOutcome.noRecord) (fun _ => "")
     [[("URL / Media", some "u")]] (fun _ => none) 1 (by decide)⟩
